import Mathlib

/-
  Shallow embedding of the bybit-py-mcp server.

  Sources embedded:
  - src/bybit_mcp/models/trade_models.py and position_models.py: pydantic
    response models become structures; a pydantic constructor/validator
    becomes a function from optionally-present raw fields to
    `Except String Model` (pydantic v2 raises ValidationError when a field
    with no default is absent; we carry the offending field in the message).
  - src/bybit_mcp/trade.py and position.py: each endpoint adapter becomes a
    function from the process-wide trading gate and its named parameters to
    an `Outcome`, which records whether the adapter returned the synthetic
    trading-disabled response, raised, or performed its single outbound
    network call (capturing the outbound parameter dict, in insertion
    order, as built by the Python code).
  - src/bybit_mcp/main.py `handle_call_tool`: the dispatcher; the try/except
    boundary becomes a match on `Except`.
-/

namespace BybitMcp

/-- A Python value appearing in an outbound parameter dict. -/
inductive Val where
  | str (s : String)
  | int (n : Int)
  | bool (b : Bool)
  deriving DecidableEq, Repr

/-- An outbound parameter dict, in insertion order. -/
abbrev Params := List (String × Val)

/-- Embeds `if value is not None: params[key] = value` for one key. -/
def paramOpt (k : String) : Option Val → Params
  | some v => [(k, v)]
  | none => []

/-- Embeds `if value: params[key] = value` (Python truthiness) for one
string-valued key: `None` and the empty string are both falsy. -/
def paramTruthyStr (k : String) : Option String → Params
  | some s => if s.isEmpty then [] else [(k, Val.str s)]
  | none => []

/-- Python truthiness of an optional string. -/
def truthyStr : Option String → Bool
  | some s => !s.isEmpty
  | none => false

def optStr (s : Option String) : Option Val := s.map Val.str

def optInt (n : Option Int) : Option Val := n.map Val.int

def optBool (b : Option Bool) : Option Val := b.map Val.bool

/-- The keys of an outbound parameter dict. -/
def paramKeys (ps : Params) : List String := ps.map Prod.fst

/-- trade.py: custom error code for trading disabled. -/
def TRADING_DISABLED_RET_CODE : Int := 40300

/-- trade.py: fixed message text for trading disabled. -/
def TRADING_DISABLED_RET_MSG : String :=
  "Trading operations are disabled by server configuration."

/-- trade_models.py `OrderItemResult`. -/
structure OrderItemResult where
  orderId : String
  orderLinkId : String
  deriving DecidableEq, Repr

/-- trade_models.py `BaseApiResponse` plus the `result` field each concrete
response subclass declares; every response class is `ApiResponse R` for its
own result type `R`. -/
structure ApiResponse (R : Type) where
  retCode : Int
  retMsg : String
  result : R
  deriving DecidableEq, Repr

/-- Pydantic: a field with no default is required; absence is a
validation error naming the field. -/
def requireField {α : Type} (fieldName : String) : Option α → Except String α
  | some v => Except.ok v
  | none => Except.error (fieldName ++ ": Field required")

/-- Pydantic constructor of any `BaseApiResponse` subclass with a required
`result` field: all three fields are required (no defaults are declared). -/
def mkApiResponse (R : Type) (retCode : Option Int) (retMsg : Option String)
    (result : Option R) : Except String (ApiResponse R) := do
  let c ← requireField "retCode" retCode
  let m ← requireField "retMsg" retMsg
  let r ← requireField "result" result
  return { retCode := c, retMsg := m, result := r }

abbrev SingleOrderItemApiResponse := ApiResponse OrderItemResult

abbrev PlaceOrderResponse := SingleOrderItemApiResponse

abbrev AmendOrderResponse := SingleOrderItemApiResponse

abbrev CancelOrderResponse := SingleOrderItemApiResponse

/-- trade_models.py `CancelAllResultItem`. -/
structure CancelAllResultItem where
  orderId : String
  orderLinkId : String
  success : Option String := none
  deriving DecidableEq, Repr

/-- trade_models.py `CancelAllOrdersResult`. -/
structure CancelAllOrdersResult where
  list : List CancelAllResultItem
  deriving DecidableEq, Repr

abbrev CancelAllOrdersResponse := ApiResponse CancelAllOrdersResult

/-- trade_models.py `BatchOperationItemBase`. -/
structure BatchOperationItemBase where
  orderId : String
  orderLinkId : String
  category : String
  symbol : String
  code : Option Int := none
  msg : Option String := none
  deriving DecidableEq, Repr

/-- trade_models.py `BatchPlaceOrderItem`. -/
structure BatchPlaceOrderItem extends BatchOperationItemBase where
  createAt : Option String := none
  deriving DecidableEq, Repr

structure BatchPlaceOrderResult where
  list : List BatchPlaceOrderItem
  deriving DecidableEq, Repr

abbrev BatchAmendOrderItemResult := BatchOperationItemBase

structure BatchAmendOrderResult where
  list : List BatchAmendOrderItemResult
  deriving DecidableEq, Repr

abbrev BatchCancelOrderItemResult := BatchOperationItemBase

structure BatchCancelOrderResult where
  list : List BatchCancelOrderItemResult
  deriving DecidableEq, Repr

abbrev BatchPlaceOrderResponse := ApiResponse BatchPlaceOrderResult

abbrev BatchAmendOrderResponse := ApiResponse BatchAmendOrderResult

abbrev BatchCancelOrderResponse := ApiResponse BatchCancelOrderResult

/-- position_models.py `SetLeverageResult` (empty pydantic model). -/
structure SetLeverageResult where
  deriving DecidableEq, Repr

/-- position_models.py `SwitchMarginModeResult` (empty pydantic model). -/
structure SwitchMarginModeResult where
  deriving DecidableEq, Repr

/-- position_models.py `SwitchPositionModeResult` (empty pydantic model). -/
structure SwitchPositionModeResult where
  deriving DecidableEq, Repr

/-- position_models.py `SetTradingStopResult` (empty pydantic model). -/
structure SetTradingStopResult where
  deriving DecidableEq, Repr

/-- position_models.py `SetAutoAddMarginResult` (empty pydantic model). -/
structure SetAutoAddMarginResult where
  deriving DecidableEq, Repr

/-- position_models.py `AddReduceMarginResult`: all fields required. -/
structure AddReduceMarginResult where
  positionIdx : Int
  riskId : Int
  riskLimitValue : String
  symbol : String
  side : String
  size : String
  avgPrice : String
  liqPrice : String
  bustPrice : String
  positionValue : String
  leverage : String
  autoAddMargin : Int
  positionStatus : String
  positionIM : String
  positionMM : String
  unrealisedPnl : String
  cumRealisedPnl : String
  createdTime : String
  updatedTime : String
  deriving DecidableEq, Repr

abbrev SetLeverageResponse := ApiResponse SetLeverageResult

abbrev SwitchMarginModeResponse := ApiResponse SwitchMarginModeResult

abbrev SwitchPositionModeResponse := ApiResponse SwitchPositionModeResult

abbrev SetTradingStopResponse := ApiResponse SetTradingStopResult

abbrev SetAutoAddMarginResponse := ApiResponse SetAutoAddMarginResult

abbrev AddReduceMarginResponse := ApiResponse AddReduceMarginResult

/-- The response-model classes passed to `_get_trading_disabled_response`
by the mutating adapters. -/
inductive MutatingModel where
  | placeOrderModel
  | amendOrderModel
  | cancelOrderModel
  | cancelAllOrdersModel
  | batchPlaceOrderModel
  | batchAmendOrderModel
  | batchCancelOrderModel
  | setLeverageModel
  | switchMarginModeModel
  | switchPositionModeModel
  | setTradingStopModel
  | setAutoAddMarginModel
  | addReduceMarginModel
  deriving DecidableEq, Repr

/-- The value returned by `_get_trading_disabled_response`, tagged by which
response model it instantiates. -/
inductive DisabledResponse where
  | single (r : SingleOrderItemApiResponse)
  | cancelAll (r : CancelAllOrdersResponse)
  | batchPlace (r : BatchPlaceOrderResponse)
  | batchAmend (r : BatchAmendOrderResponse)
  | batchCancel (r : BatchCancelOrderResponse)
  | setLeverage (r : SetLeverageResponse)
  | switchMargin (r : SwitchMarginModeResponse)
  | switchPosMode (r : SwitchPositionModeResponse)
  | setTradingStop (r : SetTradingStopResponse)
  | setAutoAddMargin (r : SetAutoAddMarginResponse)
  | addReduceMargin (r : AddReduceMarginResponse)
  deriving DecidableEq, Repr

/-- trade.py `_get_trading_disabled_response`: kwargs always carry retCode
and retMsg; a `result` kwarg is added only for the single-order models
(`OrderItemResult(orderId="", orderLinkId="")`) and for the cancel-all and
batch models (`{"list": []}`); every other model is constructed from
retCode and retMsg alone, so a model whose `result` field is required
fails pydantic validation. -/
def getTradingDisabledResponse (m : MutatingModel) :
    Except String DisabledResponse :=
  match m with
  | .placeOrderModel | .amendOrderModel | .cancelOrderModel =>
      (mkApiResponse OrderItemResult (some TRADING_DISABLED_RET_CODE)
        (some TRADING_DISABLED_RET_MSG)
        (some { orderId := "", orderLinkId := "" })).map DisabledResponse.single
  | .cancelAllOrdersModel =>
      (mkApiResponse CancelAllOrdersResult (some TRADING_DISABLED_RET_CODE)
        (some TRADING_DISABLED_RET_MSG)
        (some { list := [] })).map DisabledResponse.cancelAll
  | .batchPlaceOrderModel =>
      (mkApiResponse BatchPlaceOrderResult (some TRADING_DISABLED_RET_CODE)
        (some TRADING_DISABLED_RET_MSG)
        (some { list := [] })).map DisabledResponse.batchPlace
  | .batchAmendOrderModel =>
      (mkApiResponse BatchAmendOrderResult (some TRADING_DISABLED_RET_CODE)
        (some TRADING_DISABLED_RET_MSG)
        (some { list := [] })).map DisabledResponse.batchAmend
  | .batchCancelOrderModel =>
      (mkApiResponse BatchCancelOrderResult (some TRADING_DISABLED_RET_CODE)
        (some TRADING_DISABLED_RET_MSG)
        (some { list := [] })).map DisabledResponse.batchCancel
  | .setLeverageModel =>
      (mkApiResponse SetLeverageResult (some TRADING_DISABLED_RET_CODE)
        (some TRADING_DISABLED_RET_MSG) none).map DisabledResponse.setLeverage
  | .switchMarginModeModel =>
      (mkApiResponse SwitchMarginModeResult (some TRADING_DISABLED_RET_CODE)
        (some TRADING_DISABLED_RET_MSG) none).map DisabledResponse.switchMargin
  | .switchPositionModeModel =>
      (mkApiResponse SwitchPositionModeResult (some TRADING_DISABLED_RET_CODE)
        (some TRADING_DISABLED_RET_MSG) none).map DisabledResponse.switchPosMode
  | .setTradingStopModel =>
      (mkApiResponse SetTradingStopResult (some TRADING_DISABLED_RET_CODE)
        (some TRADING_DISABLED_RET_MSG) none).map DisabledResponse.setTradingStop
  | .setAutoAddMarginModel =>
      (mkApiResponse SetAutoAddMarginResult (some TRADING_DISABLED_RET_CODE)
        (some TRADING_DISABLED_RET_MSG) none).map DisabledResponse.setAutoAddMargin
  | .addReduceMarginModel =>
      (mkApiResponse AddReduceMarginResult (some TRADING_DISABLED_RET_CODE)
        (some TRADING_DISABLED_RET_MSG) none).map DisabledResponse.addReduceMargin

/-- Observable behavior of one mutating adapter invocation: it returned the
synthetic trading-disabled response, raised an exception, or reached its
single outbound network call with the given request parameters. -/
inductive Outcome (P : Type) where
  | disabled (r : DisabledResponse)
  | raise (msg : String)
  | call (params : P)
  deriving DecidableEq, Repr

/-- The `return _get_trading_disabled_response(Model)` statement: a pydantic
validation failure inside the helper propagates as a raised exception. -/
def disabledOutcome {P : Type} (m : MutatingModel) : Outcome P :=
  match getTradingDisabledResponse m with
  | .ok r => Outcome.disabled r
  | .error e => Outcome.raise e

/-- trade.py `place_order` named parameters (defaults mirror the Python
signature: every optional parameter defaults to None). -/
structure PlaceOrderArgs where
  category : String
  symbol : String
  side : String
  orderType : String
  qty : String
  price : Option String := none
  isLeverage : Option Int := none
  orderLinkId : Option String := none
  timeInForce : Option String := none
  positionIdx : Option Int := none
  reduceOnly : Option Bool := none
  triggerBy : Option String := none
  triggerPrice : Option String := none
  triggerDirection : Option Int := none
  takeProfit : Option String := none
  stopLoss : Option String := none
  tpTriggerBy : Option String := none
  slTriggerBy : Option String := none
  marketUnit : Option String := none
  smpType : Option String := none
  deriving DecidableEq, Repr

/-- trade.py `place_order`: the outbound params dict — five required
entries, then each optional parameter added only if it is not None, in
source order; `tpT`/`slT` are the (possibly defaulted) local values of
tpTriggerBy/slTriggerBy at the time the dict is built. -/
def placeOrderParams (a : PlaceOrderArgs) (tpT slT : Option String) : Params :=
  [("category", Val.str a.category), ("symbol", Val.str a.symbol),
   ("side", Val.str a.side), ("orderType", Val.str a.orderType),
   ("qty", Val.str a.qty)]
  ++ paramOpt "price" (optStr a.price)
  ++ paramOpt "isLeverage" (optInt a.isLeverage)
  ++ paramOpt "orderLinkId" (optStr a.orderLinkId)
  ++ paramOpt "timeInForce" (optStr a.timeInForce)
  ++ paramOpt "positionIdx" (optInt a.positionIdx)
  ++ paramOpt "reduceOnly" (optBool a.reduceOnly)
  ++ paramOpt "triggerBy" (optStr a.triggerBy)
  ++ paramOpt "triggerPrice" (optStr a.triggerPrice)
  ++ paramOpt "triggerDirection" (optInt a.triggerDirection)
  ++ paramOpt "takeProfit" (optStr a.takeProfit)
  ++ paramOpt "stopLoss" (optStr a.stopLoss)
  ++ paramOpt "tpTriggerBy" (optStr tpT)
  ++ paramOpt "slTriggerBy" (optStr slT)
  ++ paramOpt "marketUnit" (optStr a.marketUnit)
  ++ paramOpt "smpType" (optStr a.smpType)

/-- trade.py `place_order`: gate check, then the four validation blocks
(two of which default tpTriggerBy/slTriggerBy instead of raising), then
the single outbound call. -/
def place_order (tradingEnabled : Bool) (a : PlaceOrderArgs) : Outcome Params :=
  if !tradingEnabled then disabledOutcome MutatingModel.placeOrderModel
  else if a.orderType = "Limit" ∧ a.price = none then
    Outcome.raise "Price is required for Limit orders"
  else if a.triggerPrice ≠ none ∧ a.triggerBy = none then
    Outcome.raise "triggerBy is required when triggerPrice is specified"
  else if a.triggerDirection ≠ none ∧ a.triggerPrice = none then
    Outcome.raise "triggerPrice is required when triggerDirection is specified"
  else
    let tpT := if a.takeProfit ≠ none ∧ a.tpTriggerBy = none then some "LastPrice"
               else a.tpTriggerBy
    let slT := if a.stopLoss ≠ none ∧ a.slTriggerBy = none then some "LastPrice"
               else a.slTriggerBy
    Outcome.call (placeOrderParams a tpT slT)

/-- trade.py `amend_order` named parameters. -/
structure AmendOrderArgs where
  category : String
  symbol : String
  orderId : Option String := none
  orderLinkId : Option String := none
  orderIv : Option String := none
  triggerPrice : Option String := none
  qty : Option String := none
  price : Option String := none
  tpslMode : Option String := none
  takeProfit : Option String := none
  stopLoss : Option String := none
  tpTriggerBy : Option String := none
  slTriggerBy : Option String := none
  triggerBy : Option String := none
  tpLimitPrice : Option String := none
  slLimitPrice : Option String := none
  deriving DecidableEq, Repr

/-- trade.py `amend_order` outbound params: required category/symbol, then
each optional parameter added only `if value is not None`, in source order. -/
def amendOrderParams (a : AmendOrderArgs) : Params :=
  [("category", Val.str a.category), ("symbol", Val.str a.symbol)]
  ++ paramOpt "orderId" (optStr a.orderId)
  ++ paramOpt "orderLinkId" (optStr a.orderLinkId)
  ++ paramOpt "orderIv" (optStr a.orderIv)
  ++ paramOpt "triggerPrice" (optStr a.triggerPrice)
  ++ paramOpt "qty" (optStr a.qty)
  ++ paramOpt "price" (optStr a.price)
  ++ paramOpt "tpslMode" (optStr a.tpslMode)
  ++ paramOpt "takeProfit" (optStr a.takeProfit)
  ++ paramOpt "stopLoss" (optStr a.stopLoss)
  ++ paramOpt "tpTriggerBy" (optStr a.tpTriggerBy)
  ++ paramOpt "slTriggerBy" (optStr a.slTriggerBy)
  ++ paramOpt "triggerBy" (optStr a.triggerBy)
  ++ paramOpt "tpLimitPrice" (optStr a.tpLimitPrice)
  ++ paramOpt "slLimitPrice" (optStr a.slLimitPrice)

/-- trade.py `amend_order`. -/
def amend_order (tradingEnabled : Bool) (a : AmendOrderArgs) : Outcome Params :=
  if !tradingEnabled then disabledOutcome MutatingModel.amendOrderModel
  else Outcome.call (amendOrderParams a)

/-- trade.py `cancel_order` named parameters. -/
structure CancelOrderArgs where
  category : String
  symbol : String
  orderId : Option String := none
  orderLinkId : Option String := none
  orderFilter : Option String := none
  deriving DecidableEq, Repr

/-- trade.py `cancel_order` outbound params: the three optional parameters
are added under Python truthiness (`if orderId:` etc.), so an empty string
is pruned like None. -/
def cancelOrderParams (a : CancelOrderArgs) : Params :=
  [("category", Val.str a.category), ("symbol", Val.str a.symbol)]
  ++ paramTruthyStr "orderId" a.orderId
  ++ paramTruthyStr "orderLinkId" a.orderLinkId
  ++ paramTruthyStr "orderFilter" a.orderFilter

/-- trade.py `cancel_order`. -/
def cancel_order (tradingEnabled : Bool) (a : CancelOrderArgs) : Outcome Params :=
  if !tradingEnabled then disabledOutcome MutatingModel.cancelOrderModel
  else Outcome.call (cancelOrderParams a)

/-- trade.py `cancel_all_orders` (optional params pruned `if value is not
None`). -/
def cancel_all_orders (tradingEnabled : Bool) (category : String)
    (symbol baseCoin settleCoin orderFilter stopOrderType : Option String) :
    Outcome Params :=
  if !tradingEnabled then disabledOutcome MutatingModel.cancelAllOrdersModel
  else
    Outcome.call ([("category", Val.str category)]
      ++ paramOpt "symbol" (optStr symbol)
      ++ paramOpt "baseCoin" (optStr baseCoin)
      ++ paramOpt "settleCoin" (optStr settleCoin)
      ++ paramOpt "orderFilter" (optStr orderFilter)
      ++ paramOpt "stopOrderType" (optStr stopOrderType))

/-- A raw request dict inside a batch request array. -/
abbrev RawDict := List (String × Val)

/-- trade.py `batch_place_order`. -/
def batch_place_order (tradingEnabled : Bool) (category : String)
    (request : List RawDict) : Outcome (String × List RawDict) :=
  if !tradingEnabled then disabledOutcome MutatingModel.batchPlaceOrderModel
  else Outcome.call (category, request)

/-- trade.py `batch_amend_order`. -/
def batch_amend_order (tradingEnabled : Bool) (category : String)
    (request : List RawDict) : Outcome (String × List RawDict) :=
  if !tradingEnabled then disabledOutcome MutatingModel.batchAmendOrderModel
  else Outcome.call (category, request)

/-- trade.py `batch_cancel_order`. -/
def batch_cancel_order (tradingEnabled : Bool) (category : String)
    (request : List RawDict) : Outcome (String × List RawDict) :=
  if !tradingEnabled then disabledOutcome MutatingModel.batchCancelOrderModel
  else Outcome.call (category, request)

/-- trade.py `place_trigger_order` named parameters. -/
structure PlaceTriggerOrderArgs where
  category : String
  symbol : String
  side : String
  orderType : String
  qty : String
  triggerPrice : String
  triggerDirection : Int
  triggerBy : Option String := none
  price : Option String := none
  orderFilter : Option String := none
  timeInForce : Option String := none
  reduceOnly : Option Bool := none
  closeOnTrigger : Option Bool := none
  positionIdx : Option Int := none
  orderLinkId : Option String := none
  deriving DecidableEq, Repr

/-- trade.py `place_trigger_order`: uses the PlaceOrderResponse model for
its disabled response; optional params pruned `if value is not None`. -/
def place_trigger_order (tradingEnabled : Bool) (a : PlaceTriggerOrderArgs) :
    Outcome Params :=
  if !tradingEnabled then disabledOutcome MutatingModel.placeOrderModel
  else
    Outcome.call ([("category", Val.str a.category), ("symbol", Val.str a.symbol),
      ("side", Val.str a.side), ("orderType", Val.str a.orderType),
      ("qty", Val.str a.qty), ("triggerPrice", Val.str a.triggerPrice),
      ("triggerDirection", Val.int a.triggerDirection)]
      ++ paramOpt "triggerBy" (optStr a.triggerBy)
      ++ paramOpt "price" (optStr a.price)
      ++ paramOpt "orderFilter" (optStr a.orderFilter)
      ++ paramOpt "timeInForce" (optStr a.timeInForce)
      ++ paramOpt "reduceOnly" (optBool a.reduceOnly)
      ++ paramOpt "closeOnTrigger" (optBool a.closeOnTrigger)
      ++ paramOpt "positionIdx" (optInt a.positionIdx)
      ++ paramOpt "orderLinkId" (optStr a.orderLinkId))

/-- position.py `get_position_info` outbound params: symbol/baseCoin/cursor
pruned by truthiness (`if symbol:` etc.); limit pruned only when None and
converted to a string when present. -/
def getPositionInfoParams (category settleCoin : String)
    (symbol baseCoin : Option String) (limit : Option Int)
    (cursor : Option String) : Params :=
  [("category", Val.str category), ("settleCoin", Val.str settleCoin)]
  ++ paramTruthyStr "symbol" symbol
  ++ paramTruthyStr "baseCoin" baseCoin
  ++ paramOpt "limit" ((limit.map toString).map Val.str)
  ++ paramTruthyStr "cursor" cursor

/-- position.py `set_leverage`. -/
def set_leverage (tradingEnabled : Bool)
    (category symbol buyLeverage sellLeverage : String) : Outcome Params :=
  if !tradingEnabled then disabledOutcome MutatingModel.setLeverageModel
  else
    Outcome.call [("category", Val.str category), ("symbol", Val.str symbol),
      ("buyLeverage", Val.str buyLeverage), ("sellLeverage", Val.str sellLeverage)]

/-- position.py `switch_cross_isolated_margin`. -/
def switch_cross_isolated_margin (tradingEnabled : Bool)
    (category symbol : String) (tradeMode : Int)
    (buyLeverage sellLeverage : String) : Outcome Params :=
  if !tradingEnabled then disabledOutcome MutatingModel.switchMarginModeModel
  else
    Outcome.call [("category", Val.str category), ("symbol", Val.str symbol),
      ("tradeMode", Val.int tradeMode), ("buyLeverage", Val.str buyLeverage),
      ("sellLeverage", Val.str sellLeverage)]

/-- position.py `switch_position_mode`: symbol/coin pruned by truthiness. -/
def switch_position_mode (tradingEnabled : Bool) (category : String)
    (symbol coin : Option String) (mode : Int) : Outcome Params :=
  if !tradingEnabled then disabledOutcome MutatingModel.switchPositionModeModel
  else
    Outcome.call ([("category", Val.str category), ("mode", Val.int mode)]
      ++ paramTruthyStr "symbol" symbol
      ++ paramTruthyStr "coin" coin)

/-- position.py `set_trading_stop` named parameters. -/
structure SetTradingStopArgs where
  category : String
  symbol : String
  tpslMode : String
  positionIdx : Int
  takeProfit : Option String := none
  stopLoss : Option String := none
  trailingStop : Option String := none
  tpTriggerBy : Option String := none
  slTriggerBy : Option String := none
  activePrice : Option String := none
  tpSize : Option String := none
  slSize : Option String := none
  tpLimitPrice : Option String := none
  slLimitPrice : Option String := none
  tpOrderType : Option String := none
  slOrderType : Option String := none
  deriving DecidableEq, Repr

/-- position.py `set_trading_stop`: optional params pruned when None. -/
def set_trading_stop (tradingEnabled : Bool) (a : SetTradingStopArgs) :
    Outcome Params :=
  if !tradingEnabled then disabledOutcome MutatingModel.setTradingStopModel
  else
    Outcome.call ([("category", Val.str a.category), ("symbol", Val.str a.symbol),
      ("tpslMode", Val.str a.tpslMode), ("positionIdx", Val.int a.positionIdx)]
      ++ paramOpt "takeProfit" (optStr a.takeProfit)
      ++ paramOpt "stopLoss" (optStr a.stopLoss)
      ++ paramOpt "trailingStop" (optStr a.trailingStop)
      ++ paramOpt "tpTriggerBy" (optStr a.tpTriggerBy)
      ++ paramOpt "slTriggerBy" (optStr a.slTriggerBy)
      ++ paramOpt "activePrice" (optStr a.activePrice)
      ++ paramOpt "tpSize" (optStr a.tpSize)
      ++ paramOpt "slSize" (optStr a.slSize)
      ++ paramOpt "tpLimitPrice" (optStr a.tpLimitPrice)
      ++ paramOpt "slLimitPrice" (optStr a.slLimitPrice)
      ++ paramOpt "tpOrderType" (optStr a.tpOrderType)
      ++ paramOpt "slOrderType" (optStr a.slOrderType))

/-- position.py `set_auto_add_margin`: positionIdx stringified when
present, pruned when None. -/
def set_auto_add_margin (tradingEnabled : Bool) (category symbol : String)
    (autoAddMargin : Int) (positionIdx : Option Int) : Outcome Params :=
  if !tradingEnabled then disabledOutcome MutatingModel.setAutoAddMarginModel
  else
    Outcome.call ([("category", Val.str category), ("symbol", Val.str symbol),
      ("autoAddMargin", Val.int autoAddMargin)]
      ++ paramOpt "positionIdx" ((positionIdx.map toString).map Val.str))

/-- position.py `modify_position_margin`. -/
def modify_position_margin (tradingEnabled : Bool) (category symbol margin : String)
    (positionIdx : Option Int) : Outcome Params :=
  if !tradingEnabled then disabledOutcome MutatingModel.addReduceMarginModel
  else
    Outcome.call ([("category", Val.str category), ("symbol", Val.str symbol),
      ("margin", Val.str margin)]
      ++ paramOpt "positionIdx" ((positionIdx.map toString).map Val.str))

/-- market.py `get_tickers`: `("limit", str(limit) if limit else None)` —
a falsy limit (None or 0) becomes None before the truthiness pruning. -/
def strIfTruthyInt : Option Int → Option String
  | some n => if n = 0 then none else some (toString n)
  | none => none

/-- market.py `get_tickers` outbound params: every optional entry pruned by
truthiness (`if value:`), so empty strings and a zero limit are dropped. -/
def getTickersParams (symbol : Option String) (category : String)
    (baseCoin : Option String) (limit : Option Int) (cursor : Option String) :
    Params :=
  [("category", Val.str category)]
  ++ paramTruthyStr "symbol" symbol
  ++ paramTruthyStr "baseCoin" baseCoin
  ++ paramTruthyStr "limit" (strIfTruthyInt limit)
  ++ paramTruthyStr "cursor" cursor

/-- main.py: an MCP text content block (`TextContent(type="text", text=...)`). -/
structure TextContent where
  type : String
  text : String
  deriving DecidableEq, Repr

/-- The JSON argument mapping of a tool invocation. -/
abbrev ToolArgs := List (String × Val)

/-- The behavior of the adapter layer as seen by the dispatcher: invoking a
tool's adapter with the given arguments and rendering its result either
yields the rendered text or raises a fault (validation, network or schema),
carried as its message. -/
abbrev AdapterEnv := String → ToolArgs → Except String String

/-- main.py `handle_call_tool`: the tool names tested by the if/elif chain,
in source order; each branch invokes the matching adapter and renders its
result as a single text block. -/
def toolNames : List String :=
  ["get_server_time", "get_tickers", "get_order_book", "get_recent_trades",
   "get_kline", "get_mark_price_kline", "get_index_price_kline",
   "get_premium_index_price_kline", "get_instruments_info",
   "get_funding_rate_history", "get_open_interest", "get_insurance",
   "get_risk_limit", "get_long_short_ratio", "place_order", "amend_order",
   "cancel_order", "get_open_closed_orders", "cancel_all_orders",
   "get_order_history", "get_trade_history", "batch_place_order",
   "batch_amend_order", "batch_cancel_order", "get_wallet_balance",
   "get_single_coin_balance", "get_account_info", "get_position_info",
   "get_closed_pnl", "set_leverage", "switch_cross_isolated_margin",
   "switch_position_mode", "set_trading_stop", "set_auto_add_margin",
   "modify_position_margin", "place_trigger_order"]

/-- main.py `handle_call_tool`, the body of the `try` block: a matched name
invokes its adapter (any raised fault propagates); an unmatched name falls
through to the final `else`, a normal text result, not a fault. -/
def dispatchTry (adapters : AdapterEnv) (toolName : String) (args : ToolArgs) :
    Except String (List TextContent) :=
  if toolName ∈ toolNames then
    (adapters toolName args).map (fun t => [TextContent.mk "text" t])
  else
    Except.ok [TextContent.mk "text" ("Unknown tool: " ++ toolName)]

/-- main.py `handle_call_tool`: the `except Exception` clause converts any
fault raised inside the try block into a single text result. -/
def handle_call_tool (adapters : AdapterEnv) (toolName : String)
    (args : ToolArgs) : List TextContent :=
  match dispatchTry adapters toolName args with
  | .ok r => r
  | .error e =>
      [TextContent.mk "text" ("Error calling " ++ toolName ++ ": " ++ e)]

/-- trade_models.py `Order` (validated form): eight required fields, the
rest optional with default None. -/
structure Order where
  orderId : String
  orderLinkId : String
  blockTradeId : Option String := none
  symbol : String
  price : String
  qty : String
  side : String
  isLeverage : Option String := none
  positionIdx : Option Int := none
  orderStatus : String
  createType : Option String := none
  cancelType : Option String := none
  rejectReason : Option String := none
  avgPrice : Option String := none
  leavesQty : Option String := none
  leavesValue : Option String := none
  cumExecQty : Option String := none
  cumExecValue : Option String := none
  cumExecFee : Option String := none
  timeInForce : Option String := none
  orderType : String
  stopOrderType : Option String := none
  orderIv : Option String := none
  triggerPrice : Option String := none
  takeProfit : Option String := none
  stopLoss : Option String := none
  createdTime : Option String := none
  updatedTime : Option String := none
  triggerDirection : Option Int := none
  triggerBy : Option String := none
  reduceOnly : Option Bool := none
  closeOnTrigger : Option Bool := none
  smpType : Option String := none
  smpGroup : Option Int := none
  smpOrderId : Option String := none
  tpslMode : Option String := none
  tpLimitPrice : Option String := none
  slLimitPrice : Option String := none
  placeType : Option String := none
  deriving DecidableEq, Repr

/-- The raw wire payload for one order: every field optionally present. -/
structure RawOrder where
  orderId : Option String := none
  orderLinkId : Option String := none
  blockTradeId : Option String := none
  symbol : Option String := none
  price : Option String := none
  qty : Option String := none
  side : Option String := none
  isLeverage : Option String := none
  positionIdx : Option Int := none
  orderStatus : Option String := none
  createType : Option String := none
  cancelType : Option String := none
  rejectReason : Option String := none
  avgPrice : Option String := none
  leavesQty : Option String := none
  leavesValue : Option String := none
  cumExecQty : Option String := none
  cumExecValue : Option String := none
  cumExecFee : Option String := none
  timeInForce : Option String := none
  orderType : Option String := none
  stopOrderType : Option String := none
  orderIv : Option String := none
  triggerPrice : Option String := none
  takeProfit : Option String := none
  stopLoss : Option String := none
  createdTime : Option String := none
  updatedTime : Option String := none
  triggerDirection : Option Int := none
  triggerBy : Option String := none
  reduceOnly : Option Bool := none
  closeOnTrigger : Option Bool := none
  smpType : Option String := none
  smpGroup : Option Int := none
  smpOrderId : Option String := none
  tpslMode : Option String := none
  tpLimitPrice : Option String := none
  slLimitPrice : Option String := none
  placeType : Option String := none
  deriving DecidableEq, Repr

/-- Pydantic validation of `Order`: required fields must be present;
optional fields pass through (absent means None). -/
def validateOrder (r : RawOrder) : Except String Order := do
  let orderId ← requireField "orderId" r.orderId
  let orderLinkId ← requireField "orderLinkId" r.orderLinkId
  let symbol ← requireField "symbol" r.symbol
  let price ← requireField "price" r.price
  let qty ← requireField "qty" r.qty
  let side ← requireField "side" r.side
  let orderStatus ← requireField "orderStatus" r.orderStatus
  let orderType ← requireField "orderType" r.orderType
  return { orderId := orderId, orderLinkId := orderLinkId,
           blockTradeId := r.blockTradeId, symbol := symbol, price := price,
           qty := qty, side := side, isLeverage := r.isLeverage,
           positionIdx := r.positionIdx, orderStatus := orderStatus,
           createType := r.createType, cancelType := r.cancelType,
           rejectReason := r.rejectReason, avgPrice := r.avgPrice,
           leavesQty := r.leavesQty, leavesValue := r.leavesValue,
           cumExecQty := r.cumExecQty, cumExecValue := r.cumExecValue,
           cumExecFee := r.cumExecFee, timeInForce := r.timeInForce,
           orderType := orderType, stopOrderType := r.stopOrderType,
           orderIv := r.orderIv, triggerPrice := r.triggerPrice,
           takeProfit := r.takeProfit, stopLoss := r.stopLoss,
           createdTime := r.createdTime, updatedTime := r.updatedTime,
           triggerDirection := r.triggerDirection, triggerBy := r.triggerBy,
           reduceOnly := r.reduceOnly, closeOnTrigger := r.closeOnTrigger,
           smpType := r.smpType, smpGroup := r.smpGroup,
           smpOrderId := r.smpOrderId, tpslMode := r.tpslMode,
           tpLimitPrice := r.tpLimitPrice, slLimitPrice := r.slLimitPrice,
           placeType := r.placeType }

/-- trade_models.py `PaginatedOrderListResult`: category, nextPageCursor
and list are all declared with no default, hence all required. -/
structure PaginatedOrderListResult where
  category : String
  nextPageCursor : String
  list : List Order
  deriving DecidableEq, Repr

/-- Raw wire payload for `PaginatedOrderListResult`. -/
structure RawPaginatedOrderList where
  category : Option String := none
  nextPageCursor : Option String := none
  list : Option (List RawOrder) := none
  deriving DecidableEq, Repr

/-- Pydantic validation of `PaginatedOrderListResult`: every field is
required (an absent list fails; it is not defaulted to empty). -/
def validatePaginatedOrderListResult (r : RawPaginatedOrderList) :
    Except String PaginatedOrderListResult := do
  let category ← requireField "category" r.category
  let nextPageCursor ← requireField "nextPageCursor" r.nextPageCursor
  let rawList ← requireField "list" r.list
  let list ← rawList.mapM validateOrder
  return { category := category, nextPageCursor := nextPageCursor, list := list }

/-- A wire value the exchange may send either as integer or string. -/
inductive IntOrStr where
  | i (n : Int)
  | s (v : String)
  deriving DecidableEq, Repr

/-- trade_models.py `TradeExecutionItem.convert_seq_to_str`
(`@field_validator("seq", mode="before")`): an integer is replaced by its
decimal string; a string or an absent value passes through unchanged. -/
def convert_seq_to_str : Option IntOrStr → Option IntOrStr
  | some (IntOrStr.i n) => some (IntOrStr.s (toString n))
  | v => v

/-- trade_models.py `TradeExecutionItem` (validated form). -/
structure TradeExecutionItem where
  symbol : String
  orderId : String
  orderLinkId : Option String := none
  side : String
  orderPrice : String
  orderQty : String
  leavesQty : Option String := none
  createType : Option String := none
  orderType : String
  stopOrderType : Option String := none
  execFee : String
  execId : String
  execPrice : String
  execQty : String
  execType : Option String := none
  execValue : Option String := none
  execTime : String
  feeCurrency : Option String := none
  isMaker : Bool
  feeRate : Option String := none
  tradeIv : Option String := none
  markIv : Option String := none
  markPrice : Option String := none
  indexPrice : Option String := none
  underlyingPrice : Option String := none
  blockTradeId : Option String := none
  closedSize : Option String := none
  seq : Option IntOrStr := none
  extraFees : Option String := none
  deriving DecidableEq, Repr

/-- Raw wire payload for `TradeExecutionItem`: `seq` may arrive as an
integer or a string. -/
structure RawTradeExecutionItem where
  symbol : Option String := none
  orderId : Option String := none
  orderLinkId : Option String := none
  side : Option String := none
  orderPrice : Option String := none
  orderQty : Option String := none
  leavesQty : Option String := none
  createType : Option String := none
  orderType : Option String := none
  stopOrderType : Option String := none
  execFee : Option String := none
  execId : Option String := none
  execPrice : Option String := none
  execQty : Option String := none
  execType : Option String := none
  execValue : Option String := none
  execTime : Option String := none
  feeCurrency : Option String := none
  isMaker : Option Bool := none
  feeRate : Option String := none
  tradeIv : Option String := none
  markIv : Option String := none
  markPrice : Option String := none
  indexPrice : Option String := none
  underlyingPrice : Option String := none
  blockTradeId : Option String := none
  closedSize : Option String := none
  seq : Option IntOrStr := none
  extraFees : Option String := none
  deriving DecidableEq, Repr

/-- Pydantic validation of `TradeExecutionItem`: required fields must be
present; the declared per-field `seq` coercion runs in before mode. -/
def validateTradeExecutionItem (r : RawTradeExecutionItem) :
    Except String TradeExecutionItem := do
  let symbol ← requireField "symbol" r.symbol
  let orderId ← requireField "orderId" r.orderId
  let side ← requireField "side" r.side
  let orderPrice ← requireField "orderPrice" r.orderPrice
  let orderQty ← requireField "orderQty" r.orderQty
  let orderType ← requireField "orderType" r.orderType
  let execFee ← requireField "execFee" r.execFee
  let execId ← requireField "execId" r.execId
  let execPrice ← requireField "execPrice" r.execPrice
  let execQty ← requireField "execQty" r.execQty
  let execTime ← requireField "execTime" r.execTime
  let isMaker ← requireField "isMaker" r.isMaker
  return { symbol := symbol, orderId := orderId, orderLinkId := r.orderLinkId,
           side := side, orderPrice := orderPrice, orderQty := orderQty,
           leavesQty := r.leavesQty, createType := r.createType,
           orderType := orderType, stopOrderType := r.stopOrderType,
           execFee := execFee, execId := execId, execPrice := execPrice,
           execQty := execQty, execType := r.execType,
           execValue := r.execValue, execTime := execTime,
           feeCurrency := r.feeCurrency, isMaker := isMaker,
           feeRate := r.feeRate, tradeIv := r.tradeIv, markIv := r.markIv,
           markPrice := r.markPrice, indexPrice := r.indexPrice,
           underlyingPrice := r.underlyingPrice,
           blockTradeId := r.blockTradeId, closedSize := r.closedSize,
           seq := convert_seq_to_str r.seq, extraFees := r.extraFees }

/-- trade_models.py `TradeHistoryResult`: category and list required,
nextPageCursor is `Optional[str] = None`. -/
structure TradeHistoryResult where
  category : String
  list : List TradeExecutionItem
  nextPageCursor : Option String := none
  deriving DecidableEq, Repr

/-- Raw wire payload for `TradeHistoryResult`. -/
structure RawTradeHistoryResult where
  category : Option String := none
  list : Option (List RawTradeExecutionItem) := none
  nextPageCursor : Option String := none
  deriving DecidableEq, Repr

/-- Pydantic validation of `TradeHistoryResult`: category and list
required; an absent nextPageCursor defaults to None. -/
def validateTradeHistoryResult (r : RawTradeHistoryResult) :
    Except String TradeHistoryResult := do
  let category ← requireField "category" r.category
  let rawList ← requireField "list" r.list
  let list ← rawList.mapM validateTradeExecutionItem
  return { category := category, list := list,
           nextPageCursor := r.nextPageCursor }

/-- position_models.py `PositionInfoItem` (validated form). -/
structure PositionInfoItem where
  positionIdx : Int
  riskId : Int
  riskLimitValue : String
  symbol : String
  side : String
  size : String
  avgPrice : String
  positionValue : String
  tradeMode : Int
  autoAddMargin : Int
  positionStatus : String
  leverage : String
  markPrice : String
  liqPrice : String
  bustPrice : String
  positionIM : String
  positionMM : String
  positionBalance : String
  takeProfit : String
  stopLoss : String
  trailingStop : String
  sessionAvgPrice : String
  delta : String
  gamma : String
  vega : String
  theta : String
  unrealisedPnl : String
  curRealisedPnl : String
  cumRealisedPnl : String
  adlRankIndicator : Int
  createdTime : String
  updatedTime : String
  tpslMode : Option String := none
  tpLimitPrice : Option String := none
  slLimitPrice : Option String := none
  tpTriggerBy : Option String := none
  slTriggerBy : Option String := none
  seq : Option Int := none
  isReduceOnly : Option Bool := none
  mmrSysUpdatedTime : Option String := none
  leverageSysUpdatedTime : Option String := none
  deriving DecidableEq, Repr

/-- Raw wire payload for `PositionInfoItem`. -/
structure RawPositionInfoItem where
  positionIdx : Option Int := none
  riskId : Option Int := none
  riskLimitValue : Option String := none
  symbol : Option String := none
  side : Option String := none
  size : Option String := none
  avgPrice : Option String := none
  positionValue : Option String := none
  tradeMode : Option Int := none
  autoAddMargin : Option Int := none
  positionStatus : Option String := none
  leverage : Option String := none
  markPrice : Option String := none
  liqPrice : Option String := none
  bustPrice : Option String := none
  positionIM : Option String := none
  positionMM : Option String := none
  positionBalance : Option String := none
  takeProfit : Option String := none
  stopLoss : Option String := none
  trailingStop : Option String := none
  sessionAvgPrice : Option String := none
  delta : Option String := none
  gamma : Option String := none
  vega : Option String := none
  theta : Option String := none
  unrealisedPnl : Option String := none
  curRealisedPnl : Option String := none
  cumRealisedPnl : Option String := none
  adlRankIndicator : Option Int := none
  createdTime : Option String := none
  updatedTime : Option String := none
  tpslMode : Option String := none
  tpLimitPrice : Option String := none
  slLimitPrice : Option String := none
  tpTriggerBy : Option String := none
  slTriggerBy : Option String := none
  seq : Option Int := none
  isReduceOnly : Option Bool := none
  mmrSysUpdatedTime : Option String := none
  leverageSysUpdatedTime : Option String := none
  deriving DecidableEq, Repr

/-- Pydantic validation of `PositionInfoItem`. -/
def validatePositionInfoItem (r : RawPositionInfoItem) :
    Except String PositionInfoItem := do
  let positionIdx ← requireField "positionIdx" r.positionIdx
  let riskId ← requireField "riskId" r.riskId
  let riskLimitValue ← requireField "riskLimitValue" r.riskLimitValue
  let symbol ← requireField "symbol" r.symbol
  let side ← requireField "side" r.side
  let size ← requireField "size" r.size
  let avgPrice ← requireField "avgPrice" r.avgPrice
  let positionValue ← requireField "positionValue" r.positionValue
  let tradeMode ← requireField "tradeMode" r.tradeMode
  let autoAddMargin ← requireField "autoAddMargin" r.autoAddMargin
  let positionStatus ← requireField "positionStatus" r.positionStatus
  let leverage ← requireField "leverage" r.leverage
  let markPrice ← requireField "markPrice" r.markPrice
  let liqPrice ← requireField "liqPrice" r.liqPrice
  let bustPrice ← requireField "bustPrice" r.bustPrice
  let positionIM ← requireField "positionIM" r.positionIM
  let positionMM ← requireField "positionMM" r.positionMM
  let positionBalance ← requireField "positionBalance" r.positionBalance
  let takeProfit ← requireField "takeProfit" r.takeProfit
  let stopLoss ← requireField "stopLoss" r.stopLoss
  let trailingStop ← requireField "trailingStop" r.trailingStop
  let sessionAvgPrice ← requireField "sessionAvgPrice" r.sessionAvgPrice
  let delta ← requireField "delta" r.delta
  let gamma ← requireField "gamma" r.gamma
  let vega ← requireField "vega" r.vega
  let theta ← requireField "theta" r.theta
  let unrealisedPnl ← requireField "unrealisedPnl" r.unrealisedPnl
  let curRealisedPnl ← requireField "curRealisedPnl" r.curRealisedPnl
  let cumRealisedPnl ← requireField "cumRealisedPnl" r.cumRealisedPnl
  let adlRankIndicator ← requireField "adlRankIndicator" r.adlRankIndicator
  let createdTime ← requireField "createdTime" r.createdTime
  let updatedTime ← requireField "updatedTime" r.updatedTime
  return { positionIdx := positionIdx, riskId := riskId,
           riskLimitValue := riskLimitValue, symbol := symbol, side := side,
           size := size, avgPrice := avgPrice, positionValue := positionValue,
           tradeMode := tradeMode, autoAddMargin := autoAddMargin,
           positionStatus := positionStatus, leverage := leverage,
           markPrice := markPrice, liqPrice := liqPrice,
           bustPrice := bustPrice, positionIM := positionIM,
           positionMM := positionMM, positionBalance := positionBalance,
           takeProfit := takeProfit, stopLoss := stopLoss,
           trailingStop := trailingStop, sessionAvgPrice := sessionAvgPrice,
           delta := delta, gamma := gamma, vega := vega, theta := theta,
           unrealisedPnl := unrealisedPnl, curRealisedPnl := curRealisedPnl,
           cumRealisedPnl := cumRealisedPnl,
           adlRankIndicator := adlRankIndicator, createdTime := createdTime,
           updatedTime := updatedTime, tpslMode := r.tpslMode,
           tpLimitPrice := r.tpLimitPrice, slLimitPrice := r.slLimitPrice,
           tpTriggerBy := r.tpTriggerBy, slTriggerBy := r.slTriggerBy,
           seq := r.seq, isReduceOnly := r.isReduceOnly,
           mmrSysUpdatedTime := r.mmrSysUpdatedTime,
           leverageSysUpdatedTime := r.leverageSysUpdatedTime }

/-- position_models.py `PositionInfoResult`: category, nextPageCursor and
list are all declared with no default, hence all required. -/
structure PositionInfoResult where
  category : String
  nextPageCursor : String
  list : List PositionInfoItem
  deriving DecidableEq, Repr

/-- Raw wire payload for `PositionInfoResult`. -/
structure RawPositionInfoResult where
  category : Option String := none
  nextPageCursor : Option String := none
  list : Option (List RawPositionInfoItem) := none
  deriving DecidableEq, Repr

/-- Pydantic validation of `PositionInfoResult`: every field required. -/
def validatePositionInfoResult (r : RawPositionInfoResult) :
    Except String PositionInfoResult := do
  let category ← requireField "category" r.category
  let nextPageCursor ← requireField "nextPageCursor" r.nextPageCursor
  let rawList ← requireField "list" r.list
  let list ← rawList.mapM validatePositionInfoItem
  return { category := category, nextPageCursor := nextPageCursor, list := list }

/-- A successful bind through a required field means the field was present. -/
theorem requireField_bind_ok {α β : Type} {fieldName : String} {x : Option α}
    {f : α → Except String β} {b : β}
    (h : (requireField fieldName x >>= f) = Except.ok b) :
    ∃ v, x = some v ∧ f v = Except.ok b := by
  cases x with
  | none => simp [requireField, Bind.bind, Except.bind] at h
  | some v =>
      refine ⟨v, rfl, ?_⟩
      simpa [requireField, Bind.bind, Except.bind] using h

/-- Key membership distributes over concatenated parameter segments. -/
theorem mem_paramKeys_append {k : String} {ps qs : Params} :
    k ∈ paramKeys (ps ++ qs) ↔ k ∈ paramKeys ps ∨ k ∈ paramKeys qs := by
  simp [paramKeys]

/-- Key membership in a cons cell of a parameter dict. -/
theorem mem_paramKeys_cons {k : String} {p : String × Val} {ps : Params} :
    k ∈ paramKeys (p :: ps) ↔ k = p.1 ∨ k ∈ paramKeys ps := by
  simp [paramKeys]

/-- No key is in the empty parameter dict. -/
theorem mem_paramKeys_nil {k : String} : k ∈ paramKeys [] ↔ False := by
  simp [paramKeys]

/-- Key membership for an is-not-None pruned parameter. -/
theorem mem_paramKeys_paramOpt {k k2 : String} {v : Option Val} :
    k ∈ paramKeys (paramOpt k2 v) ↔ k = k2 ∧ v ≠ none := by
  cases v <;> simp [paramOpt, paramKeys]

/-- Key membership for a truthiness-pruned string parameter. -/
theorem mem_paramKeys_paramTruthyStr {k k2 : String} {v : Option String} :
    k ∈ paramKeys (paramTruthyStr k2 v) ↔ k = k2 ∧ truthyStr v = true := by
  cases v with
  | none => simp [paramTruthyStr, paramKeys, truthyStr]
  | some s =>
      by_cases hs : s.isEmpty <;>
        simp [paramTruthyStr, paramKeys, truthyStr, hs]

/-- The digit-accumulator of `Nat.toDigitsCore` never shrinks. -/
theorem toDigitsCore_len_le (b : Nat) :
    ∀ (f n : Nat) (ds : List Char),
      ds.length ≤ (Nat.toDigitsCore b f n ds).length := by
  intro f
  induction f with
  | zero => intro n ds; simp [Nat.toDigitsCore]
  | succ f ih =>
      intro n ds
      unfold Nat.toDigitsCore
      by_cases h : n / b = 0
      · simp [h]
      · have h2 := ih (n / b) (Nat.digitChar (n % b) :: ds)
        simp only [List.length_cons] at h2
        simp only [h, if_false]
        omega

/-- `Nat.toDigits` always produces at least one digit. -/
theorem toDigits_ne_nil (b n : Nat) : Nat.toDigits b n ≠ [] := by
  unfold Nat.toDigits Nat.toDigitsCore
  by_cases h : n / b = 0
  · simp [h]
  · simp only [h, if_false]
    intro hnil
    have h2 := toDigitsCore_len_le b n (n / b) [Nat.digitChar (n % b)]
    rw [hnil] at h2
    simp at h2

/-- The decimal rendering of a natural number is never the empty string. -/
theorem nat_repr_ne_empty (n : Nat) : Nat.repr n ≠ "" := by
  intro h
  have : (Nat.toDigits 10 n) = [] := by
    have := congrArg String.data h
    simpa [Nat.repr, List.asString] using this
  exact toDigits_ne_nil 10 n this

/-- The decimal rendering of an integer is never the empty string. -/
theorem int_toString_ne_empty (n : Int) : toString n ≠ "" := by
  cases n with
  | ofNat m => exact nat_repr_ne_empty m
  | negSucc m =>
      intro h
      have := congrArg String.data h
      simp [toString, Int.repr, String.append] at this

/-- C1: the spec requires every mutating adapter, with the gate CLOSED, to
return the canonical trading-disabled instance of its own response model
(retCode 40300, fixed message, substructures empty). Evaluating the
embedded adapters at concrete inputs with the gate closed: the eight
order-side adapters do return it, but set_leverage,
switch_cross_isolated_margin, switch_position_mode, set_trading_stop,
set_auto_add_margin and modify_position_margin raise a pydantic validation
error instead, because their response models declare a required `result`
field that `_get_trading_disabled_response` never supplies. -/
theorem C1_gate_closed_eval :
    place_order false
      { category := "linear", symbol := "BTCUSDT",
        side := "Buy", orderType := "Market", qty := "0.001" } =
      Outcome.disabled (DisabledResponse.single
        { retCode := TRADING_DISABLED_RET_CODE,
          retMsg := TRADING_DISABLED_RET_MSG,
          result := { orderId := "", orderLinkId := "" } }) ∧
    amend_order false { category := "linear", symbol := "BTCUSDT" } =
      Outcome.disabled (DisabledResponse.single
        { retCode := TRADING_DISABLED_RET_CODE,
          retMsg := TRADING_DISABLED_RET_MSG,
          result := { orderId := "", orderLinkId := "" } }) ∧
    cancel_order false { category := "linear", symbol := "BTCUSDT" } =
      Outcome.disabled (DisabledResponse.single
        { retCode := TRADING_DISABLED_RET_CODE,
          retMsg := TRADING_DISABLED_RET_MSG,
          result := { orderId := "", orderLinkId := "" } }) ∧
    cancel_all_orders false "linear" none none none none none =
      Outcome.disabled (DisabledResponse.cancelAll
        { retCode := TRADING_DISABLED_RET_CODE,
          retMsg := TRADING_DISABLED_RET_MSG, result := { list := [] } }) ∧
    batch_place_order false "linear" [] =
      Outcome.disabled (DisabledResponse.batchPlace
        { retCode := TRADING_DISABLED_RET_CODE,
          retMsg := TRADING_DISABLED_RET_MSG, result := { list := [] } }) ∧
    batch_amend_order false "linear" [] =
      Outcome.disabled (DisabledResponse.batchAmend
        { retCode := TRADING_DISABLED_RET_CODE,
          retMsg := TRADING_DISABLED_RET_MSG, result := { list := [] } }) ∧
    batch_cancel_order false "linear" [] =
      Outcome.disabled (DisabledResponse.batchCancel
        { retCode := TRADING_DISABLED_RET_CODE,
          retMsg := TRADING_DISABLED_RET_MSG, result := { list := [] } }) ∧
    place_trigger_order false
      { category := "linear", symbol := "BTCUSDT",
        side := "Buy", orderType := "Market", qty := "0.001",
        triggerPrice := "50000", triggerDirection := 1 } =
      Outcome.disabled (DisabledResponse.single
        { retCode := TRADING_DISABLED_RET_CODE,
          retMsg := TRADING_DISABLED_RET_MSG,
          result := { orderId := "", orderLinkId := "" } }) ∧
    set_leverage false "linear" "BTCUSDT" "10" "10" =
      Outcome.raise "result: Field required" ∧
    switch_cross_isolated_margin false "linear" "BTCUSDT" 0 "10" "10" =
      Outcome.raise "result: Field required" ∧
    switch_position_mode false "linear" none none 0 =
      Outcome.raise "result: Field required" ∧
    set_trading_stop false
      { category := "linear", symbol := "BTCUSDT",
        tpslMode := "Full", positionIdx := 0 } =
      Outcome.raise "result: Field required" ∧
    set_auto_add_margin false "linear" "BTCUSDT" 1 none =
      Outcome.raise "result: Field required" ∧
    modify_position_margin false "linear" "BTCUSDT" "100" none =
      Outcome.raise "result: Field required" :=
  ⟨rfl, rfl, rfl, rfl, rfl, rfl, rfl, rfl, rfl, rfl, rfl, rfl, rfl, rfl⟩

/-- C10: in place_order the TradingGate check precedes parameter
validation: with the gate CLOSED, every argument combination — including
ones violating the documented invariants (Limit without price, triggerPrice
without triggerBy, ...) — returns the trading-disabled PlaceOrderResponse
and raises no validation fault. -/
theorem C10_gate_precedes_validation (a : PlaceOrderArgs) :
    place_order false a = Outcome.disabled (DisabledResponse.single
      { retCode := TRADING_DISABLED_RET_CODE,
        retMsg := TRADING_DISABLED_RET_MSG,
        result := { orderId := "", orderLinkId := "" } }) := rfl

/-- C3: with the gate OPEN, place_order with orderType "Limit" and no
price raises the documented validation fault; the adapter never reaches
its outbound network call (the outcome is a raise, not a call). -/
theorem C3_limit_requires_price (a : PlaceOrderArgs)
    (hType : a.orderType = "Limit") (hPrice : a.price = none) :
    place_order true a = Outcome.raise "Price is required for Limit orders" := by
  simp [place_order, hType, hPrice]

/-- C3 witness at a concrete argument combination. -/
theorem C3_witness :
    place_order true
      { category := "linear", symbol := "BTCUSDT",
        side := "Buy", orderType := "Limit", qty := "0.001" } =
      Outcome.raise "Price is required for Limit orders" :=
  C3_limit_requires_price _ rfl rfl

/-- C4: with the gate OPEN, place_order with triggerPrice set and
triggerBy unset raises a validation fault before any network call, and
place_order with triggerDirection set and triggerPrice unset also raises
a validation fault rather than silently defaulting. -/
theorem C4_trigger_validation (a : PlaceOrderArgs) :
    (a.triggerPrice ≠ none → a.triggerBy = none →
      ∃ msg, place_order true a = Outcome.raise msg) ∧
    (a.triggerDirection ≠ none → a.triggerPrice = none →
      ∃ msg, place_order true a = Outcome.raise msg) := by
  constructor
  · intro h1 h2
    by_cases hL : a.orderType = "Limit" ∧ a.price = none
    · exact ⟨"Price is required for Limit orders", by simp [place_order, hL]⟩
    · exact ⟨"triggerBy is required when triggerPrice is specified",
        by simp [place_order, hL, h1, h2]⟩
  · intro h1 h2
    by_cases hL : a.orderType = "Limit" ∧ a.price = none
    · exact ⟨"Price is required for Limit orders", by simp [place_order, hL]⟩
    · exact ⟨"triggerPrice is required when triggerDirection is specified",
        by simp [place_order, hL, h1, h2]⟩

/-- C4 witness at concrete argument combinations. -/
theorem C4_witness :
    (∃ msg, place_order true
      { category := "linear", symbol := "BTCUSDT",
        side := "Buy", orderType := "Market", qty := "0.001",
        triggerPrice := some "50000" } = Outcome.raise msg) ∧
    (∃ msg, place_order true
      { category := "linear", symbol := "BTCUSDT",
        side := "Buy", orderType := "Market", qty := "0.001",
        triggerDirection := some 1 } = Outcome.raise msg) :=
  ⟨(C4_trigger_validation _).1 (by simp) rfl,
   (C4_trigger_validation _).2 (by simp) rfl⟩

/-- C2: for every tool name and every argument mapping, whatever the
adapters do, the dispatcher yields exactly one text block; and whenever
the try-block body raises a fault, the boundary converts it into a text
result describing the failure — no fault crosses the dispatcher. -/
theorem C2_dispatcher_boundary (adapters : AdapterEnv) (toolName : String)
    (args : ToolArgs) :
    (handle_call_tool adapters toolName args).length = 1 ∧
    (∀ e, dispatchTry adapters toolName args = Except.error e →
      handle_call_tool adapters toolName args =
        [TextContent.mk "text" ("Error calling " ++ toolName ++ ": " ++ e)]) := by
  constructor
  · unfold handle_call_tool dispatchTry
    by_cases h : toolName ∈ toolNames
    · simp only [if_pos h]
      cases adapters toolName args <;> simp [Except.map]
    · simp [if_neg h]
  · intro e he
    unfold handle_call_tool
    rw [he]

/-- C2 witness: a concrete adapter fault is converted into a text result. -/
theorem C2_witness :
    handle_call_tool (fun _ _ => Except.error "boom") "place_order" [] =
      [TextContent.mk "text" "Error calling place_order: boom"] :=
  (C2_dispatcher_boundary _ _ _).2 "boom" rfl

/-- C7: any tool name with no exact match in the dispatcher's binding set
yields the literal unknown-tool text result, with no fault raised. -/
theorem C7_unknown_tool (adapters : AdapterEnv) (args : ToolArgs)
    (toolName : String) (h : toolName ∉ toolNames) :
    handle_call_tool adapters toolName args =
      [TextContent.mk "text" ("Unknown tool: " ++ toolName)] := by
  unfold handle_call_tool dispatchTry
  rw [if_neg h]

/-- C7 witness: the name "frobnicate" matches no binding. -/
theorem C7_witness :
    handle_call_tool (fun _ _ => Except.ok "") "frobnicate" [] =
      [TextContent.mk "text" "Unknown tool: frobnicate"] :=
  C7_unknown_tool _ _ _ (by decide)

/-- C5: with the gate OPEN and the hard validation invariants satisfied,
place_order with takeProfit set and tpTriggerBy unset (or stopLoss set and
slTriggerBy unset) does not raise: the outcome is the outbound call, and
its parameters include tpTriggerBy="LastPrice" (respectively
slTriggerBy="LastPrice"). -/
theorem C5_tp_sl_default (a : PlaceOrderArgs)
    (hL : ¬(a.orderType = "Limit" ∧ a.price = none))
    (hT : ¬(a.triggerPrice ≠ none ∧ a.triggerBy = none))
    (hD : ¬(a.triggerDirection ≠ none ∧ a.triggerPrice = none)) :
    ∃ ps, place_order true a = Outcome.call ps ∧
      (a.takeProfit ≠ none → a.tpTriggerBy = none →
        ("tpTriggerBy", Val.str "LastPrice") ∈ ps) ∧
      (a.stopLoss ≠ none → a.slTriggerBy = none →
        ("slTriggerBy", Val.str "LastPrice") ∈ ps) := by
  refine ⟨placeOrderParams a
      (if a.takeProfit ≠ none ∧ a.tpTriggerBy = none then some "LastPrice"
       else a.tpTriggerBy)
      (if a.stopLoss ≠ none ∧ a.slTriggerBy = none then some "LastPrice"
       else a.slTriggerBy), by simp [place_order, hL, hT, hD], ?_, ?_⟩
  · intro h1 h2
    simp [placeOrderParams, paramOpt, optStr, h1, h2]
  · intro h1 h2
    simp [placeOrderParams, paramOpt, optStr, h1, h2]

/-- C5 witness at a concrete argument combination. -/
theorem C5_witness :
    ∃ ps, place_order true
      { category := "linear", symbol := "BTCUSDT",
        side := "Buy", orderType := "Market", qty := "0.001",
        takeProfit := some "55000", stopLoss := some "45000" } =
        Outcome.call ps ∧
      ("tpTriggerBy", Val.str "LastPrice") ∈ ps ∧
      ("slTriggerBy", Val.str "LastPrice") ∈ ps := by
  obtain ⟨ps, h1, h2, h3⟩ :=
    C5_tp_sl_default
      { category := "linear", symbol := "BTCUSDT",
        side := "Buy", orderType := "Market", qty := "0.001",
        takeProfit := some "55000", stopLoss := some "45000" }
      (by simp) (by simp) (by simp)
  exact ⟨ps, h1, h2 (by simp) rfl, h3 (by simp) rfl⟩

/-- C6 counterexample: cancel_order invoked with a caller-supplied empty
string for orderId makes its outbound call with orderId pruned — the empty
string is treated as unset rather than forwarded, contradicting the claim
that the unset sentinel is never an empty string. -/
theorem C6_counterexample :
    cancel_order true
      { category := "linear", symbol := "BTCUSDT", orderId := some "" } =
      Outcome.call [("category", Val.str "linear"),
                    ("symbol", Val.str "BTCUSDT")] := rfl

/-- C6 amended: pruning is per-adapter. Adapters that test `is not None`
(e.g. amend_order) omit exactly the None-valued optional parameters; but
cancel_order (orderId/orderLinkId/orderFilter), get_tickers
(symbol/baseCoin/limit/cursor) and get_position_info (symbol/baseCoin/
cursor) prune by Python truthiness, so a caller-supplied empty string — and
in get_tickers a zero limit — is omitted as if unset; get_position_info's
limit is pruned only when None. -/
theorem C6_pruning_amended :
    (∀ a : CancelOrderArgs,
      ("orderId" ∈ paramKeys (cancelOrderParams a) ↔
        truthyStr a.orderId = true) ∧
      ("orderLinkId" ∈ paramKeys (cancelOrderParams a) ↔
        truthyStr a.orderLinkId = true) ∧
      ("orderFilter" ∈ paramKeys (cancelOrderParams a) ↔
        truthyStr a.orderFilter = true)) ∧
    (∀ (symbol baseCoin cursor : Option String) (category : String)
        (limit : Option Int),
      ("symbol" ∈ paramKeys (getTickersParams symbol category baseCoin limit cursor) ↔
        truthyStr symbol = true) ∧
      ("limit" ∈ paramKeys (getTickersParams symbol category baseCoin limit cursor) ↔
        (∃ n, limit = some n ∧ n ≠ 0)) ∧
      ("cursor" ∈ paramKeys (getTickersParams symbol category baseCoin limit cursor) ↔
        truthyStr cursor = true)) ∧
    (∀ (category settleCoin : String) (symbol baseCoin cursor : Option String)
        (limit : Option Int),
      ("symbol" ∈ paramKeys (getPositionInfoParams category settleCoin symbol baseCoin limit cursor) ↔
        truthyStr symbol = true) ∧
      ("limit" ∈ paramKeys (getPositionInfoParams category settleCoin symbol baseCoin limit cursor) ↔
        limit ≠ none)) ∧
    (∀ a : AmendOrderArgs,
      ("orderId" ∈ paramKeys (amendOrderParams a) ↔ a.orderId ≠ none) ∧
      ("price" ∈ paramKeys (amendOrderParams a) ↔ a.price ≠ none)) := by
  refine ⟨?_, ?_, ?_, ?_⟩
  · intro a
    refine ⟨?_, ?_, ?_⟩ <;>
      simp [cancelOrderParams, mem_paramKeys_append, mem_paramKeys_cons,
        mem_paramKeys_nil, mem_paramKeys_paramTruthyStr]
  · intro symbol baseCoin cursor category limit
    refine ⟨?_, ?_, ?_⟩
    · simp [getTickersParams, mem_paramKeys_append, mem_paramKeys_cons,
        mem_paramKeys_nil, mem_paramKeys_paramTruthyStr]
    · rw [show ("limit" ∈ paramKeys (getTickersParams symbol category baseCoin limit cursor)) ↔
          truthyStr (strIfTruthyInt limit) = true from by
        simp [getTickersParams, mem_paramKeys_append, mem_paramKeys_cons,
          mem_paramKeys_nil, mem_paramKeys_paramTruthyStr]]
      cases limit with
      | none => simp [strIfTruthyInt, truthyStr]
      | some n =>
          by_cases hn : n = 0
          · simp [strIfTruthyInt, truthyStr, hn]
          · simp only [strIfTruthyInt, if_neg hn]
            have hne : (toString n).isEmpty = false := by
              rcases h : (toString n).isEmpty with _ | _
              · rfl
              · exact absurd (String.isEmpty_iff _ |>.mp h)
                  (int_toString_ne_empty n)
            simp [truthyStr, hne, hn]
    · simp [getTickersParams, mem_paramKeys_append, mem_paramKeys_cons,
        mem_paramKeys_nil, mem_paramKeys_paramTruthyStr]
  · intro category settleCoin symbol baseCoin cursor limit
    constructor
    · simp [getPositionInfoParams, mem_paramKeys_append, mem_paramKeys_cons,
        mem_paramKeys_nil, mem_paramKeys_paramTruthyStr, mem_paramKeys_paramOpt]
    · simp only [getPositionInfoParams, mem_paramKeys_append, mem_paramKeys_cons,
        mem_paramKeys_nil, mem_paramKeys_paramTruthyStr, mem_paramKeys_paramOpt]
      cases limit <;> simp
  · intro a
    constructor <;>
      simp [amendOrderParams, mem_paramKeys_append, mem_paramKeys_cons,
        mem_paramKeys_nil, mem_paramKeys_paramOpt, optStr]

/-- Binding a required field over an absent value short-circuits to the
field-required error. -/
theorem requireField_none_bind {α β : Type} (fieldName : String)
    (f : α → Except String β) :
    (requireField fieldName (none : Option α) >>= f) =
      Except.error (fieldName ++ ": Field required") := rfl

/-- Binding a required field over a present value continues. -/
theorem requireField_some_bind {α β : Type} (fieldName : String) (v : α)
    (f : α → Except String β) :
    (requireField fieldName (some v) >>= f) = f v := rfl

/-- A successful bind means the first computation succeeded. -/
theorem except_bind_ok {α β : Type} {x : Except String α}
    {f : α → Except String β} {b : β} (h : (x >>= f) = Except.ok b) :
    ∃ a, x = Except.ok a ∧ f a = Except.ok b := by
  cases x with
  | error e => simp [Bind.bind, Except.bind] at h
  | ok a =>
      refine ⟨a, rfl, ?_⟩
      simpa [Bind.bind, Except.bind] using h

/-- C8 counterexample: `PaginatedOrderListResult` fails validation when the
list field is absent (no empty-list default), and fails when the
nextPageCursor field is absent (the cursor is a required string, not an
optional one) — both contradicting the claim. -/
theorem C8_counterexample :
    validatePaginatedOrderListResult
      { category := some "linear", nextPageCursor := some "", list := none } =
      Except.error "list: Field required" ∧
    validatePaginatedOrderListResult
      { category := some "linear", nextPageCursor := none, list := some [] } =
      Except.error "nextPageCursor: Field required" := ⟨rfl, rfl⟩

/-- C8 amended: list-valued fields of the result models are required — an
absent list is a validation failure, not an empty-list default; and the
pagination cursor is optional only where declared so: TradeHistoryResult's
nextPageCursor is optional (absent passes through as None), while
PaginatedOrderListResult and PositionInfoResult require nextPageCursor. -/
theorem C8_required_lists_amended :
    (∀ r : RawPaginatedOrderList, r.list = none →
      ∃ e, validatePaginatedOrderListResult r = Except.error e) ∧
    (∀ r : RawTradeHistoryResult, r.list = none →
      ∃ e, validateTradeHistoryResult r = Except.error e) ∧
    (∀ r : RawPositionInfoResult, r.list = none →
      ∃ e, validatePositionInfoResult r = Except.error e) ∧
    (∀ r : RawPaginatedOrderList, r.nextPageCursor = none →
      ∃ e, validatePaginatedOrderListResult r = Except.error e) ∧
    (∀ r : RawPositionInfoResult, r.nextPageCursor = none →
      ∃ e, validatePositionInfoResult r = Except.error e) ∧
    (∀ (r : RawTradeHistoryResult) (out : TradeHistoryResult),
      validateTradeHistoryResult r = Except.ok out →
        out.nextPageCursor = r.nextPageCursor) := by
  refine ⟨?_, ?_, ?_, ?_, ?_, ?_⟩
  · intro r h
    cases hc : r.category with
    | none =>
        exact ⟨"category: Field required",
          by simp [validatePaginatedOrderListResult, hc, requireField_none_bind]⟩
    | some c =>
        cases hn : r.nextPageCursor with
        | none =>
            exact ⟨"nextPageCursor: Field required",
              by simp [validatePaginatedOrderListResult, hc, hn,
                requireField_none_bind, requireField_some_bind]⟩
        | some nn =>
            exact ⟨"list: Field required",
              by simp [validatePaginatedOrderListResult, hc, hn, h,
                requireField_none_bind, requireField_some_bind]⟩
  · intro r h
    cases hc : r.category with
    | none =>
        exact ⟨"category: Field required",
          by simp [validateTradeHistoryResult, hc, requireField_none_bind]⟩
    | some c =>
        exact ⟨"list: Field required",
          by simp [validateTradeHistoryResult, hc, h,
            requireField_none_bind, requireField_some_bind]⟩
  · intro r h
    cases hc : r.category with
    | none =>
        exact ⟨"category: Field required",
          by simp [validatePositionInfoResult, hc, requireField_none_bind]⟩
    | some c =>
        cases hn : r.nextPageCursor with
        | none =>
            exact ⟨"nextPageCursor: Field required",
              by simp [validatePositionInfoResult, hc, hn,
                requireField_none_bind, requireField_some_bind]⟩
        | some nn =>
            exact ⟨"list: Field required",
              by simp [validatePositionInfoResult, hc, hn, h,
                requireField_none_bind, requireField_some_bind]⟩
  · intro r h
    cases hc : r.category with
    | none =>
        exact ⟨"category: Field required",
          by simp [validatePaginatedOrderListResult, hc, requireField_none_bind]⟩
    | some c =>
        exact ⟨"nextPageCursor: Field required",
          by simp [validatePaginatedOrderListResult, hc, h,
            requireField_none_bind, requireField_some_bind]⟩
  · intro r h
    cases hc : r.category with
    | none =>
        exact ⟨"category: Field required",
          by simp [validatePositionInfoResult, hc, requireField_none_bind]⟩
    | some c =>
        exact ⟨"nextPageCursor: Field required",
          by simp [validatePositionInfoResult, hc, h,
            requireField_none_bind, requireField_some_bind]⟩
  · intro r out h
    unfold validateTradeHistoryResult at h
    obtain ⟨c, -, h⟩ := requireField_bind_ok h
    obtain ⟨rawList, -, h⟩ := requireField_bind_ok h
    obtain ⟨l, -, h⟩ := except_bind_ok h
    simp only [pure, Except.pure, Except.ok.injEq] at h
    rw [← h]

/-- C8 amended witness at concrete raw payloads. -/
theorem C8_amended_witness :
    (∃ e, validatePaginatedOrderListResult
      { category := some "linear", nextPageCursor := some "", list := none } =
      Except.error e) ∧
    (∃ e, validateTradeHistoryResult
      { category := some "spot", list := none, nextPageCursor := some "c" } =
      Except.error e) ∧
    (∃ e, validatePositionInfoResult
      { category := some "linear", nextPageCursor := some "", list := none } =
      Except.error e) ∧
    (∃ e, validatePaginatedOrderListResult
      { category := some "linear", nextPageCursor := none, list := some [] } =
      Except.error e) ∧
    (∃ e, validatePositionInfoResult
      { category := some "linear", nextPageCursor := none, list := some [] } =
      Except.error e) ∧
    TradeHistoryResult.nextPageCursor
      { category := "linear", list := [], nextPageCursor := none } = none :=
  ⟨C8_required_lists_amended.1 _ rfl,
   C8_required_lists_amended.2.1 _ rfl,
   C8_required_lists_amended.2.2.1 _ rfl,
   C8_required_lists_amended.2.2.2.1 _ rfl,
   C8_required_lists_amended.2.2.2.2.1 _ rfl,
   C8_required_lists_amended.2.2.2.2.2
     { category := some "linear", list := some [], nextPageCursor := none }
     { category := "linear", list := [], nextPageCursor := none } rfl⟩

/-- C9: the validated TradeExecutionItem's seq field is the declared
per-field coercion of the wire value: an integer arrives as its decimal
string rendering; a string or an absent value passes through unchanged. -/
theorem C9_seq_coercion (r : RawTradeExecutionItem) (it : TradeExecutionItem)
    (h : validateTradeExecutionItem r = Except.ok it) :
    (∀ n : Int, r.seq = some (IntOrStr.i n) →
      it.seq = some (IntOrStr.s (toString n))) ∧
    (∀ s : String, r.seq = some (IntOrStr.s s) → it.seq = some (IntOrStr.s s)) ∧
    (r.seq = none → it.seq = none) := by
  have hseq : it.seq = convert_seq_to_str r.seq := by
    unfold validateTradeExecutionItem at h
    obtain ⟨v1, -, h⟩ := requireField_bind_ok h
    obtain ⟨v2, -, h⟩ := requireField_bind_ok h
    obtain ⟨v3, -, h⟩ := requireField_bind_ok h
    obtain ⟨v4, -, h⟩ := requireField_bind_ok h
    obtain ⟨v5, -, h⟩ := requireField_bind_ok h
    obtain ⟨v6, -, h⟩ := requireField_bind_ok h
    obtain ⟨v7, -, h⟩ := requireField_bind_ok h
    obtain ⟨v8, -, h⟩ := requireField_bind_ok h
    obtain ⟨v9, -, h⟩ := requireField_bind_ok h
    obtain ⟨v10, -, h⟩ := requireField_bind_ok h
    obtain ⟨v11, -, h⟩ := requireField_bind_ok h
    obtain ⟨v12, -, h⟩ := requireField_bind_ok h
    simp only [pure, Except.pure, Except.ok.injEq] at h
    rw [← h]
  refine ⟨?_, ?_, ?_⟩
  · intro n hn
    rw [hseq, hn]
    rfl
  · intro s hs
    rw [hseq, hs]
    rfl
  · intro hn
    rw [hseq, hn]
    rfl

/-- C9 witness: a concrete execution payload whose seq arrives as the
integer 123 validates to an item carrying seq as the string "123". -/
theorem C9_witness :
    ∃ it, validateTradeExecutionItem
      { symbol := some "BTCUSDT", orderId := some "o1", side := some "Buy",
        orderPrice := some "50000", orderQty := some "0.001",
        orderType := some "Limit", execFee := some "0.01",
        execId := some "e1", execPrice := some "50000",
        execQty := some "0.001", execTime := some "1700000000000",
        isMaker := some true, seq := some (IntOrStr.i 123) } =
      Except.ok it ∧ it.seq = some (IntOrStr.s "123") := by
  refine ⟨
    { symbol := "BTCUSDT", orderId := "o1", side := "Buy",
      orderPrice := "50000", orderQty := "0.001", orderType := "Limit",
      execFee := "0.01", execId := "e1", execPrice := "50000",
      execQty := "0.001", execTime := "1700000000000", isMaker := true,
      seq := some (IntOrStr.s "123") }, rfl, ?_⟩
  exact (C9_seq_coercion
    { symbol := some "BTCUSDT", orderId := some "o1", side := some "Buy",
      orderPrice := some "50000", orderQty := some "0.001",
      orderType := some "Limit", execFee := some "0.01",
      execId := some "e1", execPrice := some "50000",
      execQty := some "0.001", execTime := some "1700000000000",
      isMaker := some true, seq := some (IntOrStr.i 123) } _ rfl).1 123 rfl

end BybitMcp
